import Mathlib

/-!
# Verification of the Fiscal Document Intelligence Pipeline core

Shallow embedding of the three domain engines of the repository
(`src/engines/fiscal_engine.py`, `src/engines/ocr_engine.py`,
`src/engines/sped_engine.py`) together with proofs of the specified
properties.

Modelling conventions:
* Python `float` inputs and `decimal.Decimal` arithmetic are modelled by
  exact rationals (`ℚ`); `Decimal.quantize(..., ROUND_HALF_UP)` is modelled
  by `quantizeHalfUp` (ties away from zero, as in Python).
* Python dicts returned by the engines become Lean structures; a key that is
  absent on some code path becomes an `Option` field defaulting to `none`.
  The wall-clock metadata fields (`calculado_em`, `data_auditoria`,
  `processado_em`) are not part of the pure embedding.
* A Python `raise` becomes `Except.error`.
-/

namespace ConsultSLT

/-- Python `Decimal.quantize` at `n` decimal places with `ROUND_HALF_UP`
(ties rounded away from zero), on exact rationals. -/
def quantizeHalfUp (n : ℕ) (q : ℚ) : ℚ :=
  let s : ℚ := (10 : ℚ) ^ n
  if q < 0 then -(((⌊(-q) * s + 1/2⌋ : ℤ) : ℚ) / s)
  else ((⌊q * s + 1/2⌋ : ℤ) : ℚ) / s

/-! ## Fiscal engine (`src/engines/fiscal_engine.py`) -/

/-- One bracket (`faixa`) of a Simples Nacional annex table:
`{"limite": ..., "aliquota": ..., "deducao": ...}`. -/
structure Faixa where
  limite : ℚ
  aliquota : ℚ
  deducao : ℚ
  deriving DecidableEq

/-- `TABELA_SIMPLES["anexo_i"]["faixas"]`. -/
def faixas_anexo_i : List Faixa :=
  [⟨180000, 4.0, 0⟩, ⟨360000, 7.3, 5940⟩, ⟨720000, 9.5, 13860⟩,
   ⟨1800000, 10.7, 22500⟩, ⟨3600000, 14.3, 87300⟩, ⟨4800000, 19.0, 378000⟩]

/-- `TABELA_SIMPLES["anexo_ii"]["faixas"]`. -/
def faixas_anexo_ii : List Faixa :=
  [⟨180000, 4.5, 0⟩, ⟨360000, 7.8, 5940⟩, ⟨720000, 10.0, 13860⟩,
   ⟨1800000, 11.2, 22500⟩, ⟨3600000, 14.7, 85500⟩, ⟨4800000, 30.0, 720000⟩]

/-- `TABELA_SIMPLES["anexo_iii"]["faixas"]`. -/
def faixas_anexo_iii : List Faixa :=
  [⟨180000, 6.0, 0⟩, ⟨360000, 11.2, 9360⟩, ⟨720000, 13.5, 17640⟩,
   ⟨1800000, 16.0, 35640⟩, ⟨3600000, 21.0, 125640⟩, ⟨4800000, 33.0, 648000⟩]

/-- `TABELA_SIMPLES["anexo_iv"]["faixas"]`. -/
def faixas_anexo_iv : List Faixa :=
  [⟨180000, 4.5, 0⟩, ⟨360000, 9.0, 8100⟩, ⟨720000, 10.2, 12420⟩,
   ⟨1800000, 14.0, 39780⟩, ⟨3600000, 22.0, 183780⟩, ⟨4800000, 33.0, 828000⟩]

/-- `TABELA_SIMPLES["anexo_v"]["faixas"]`. -/
def faixas_anexo_v : List Faixa :=
  [⟨180000, 15.5, 0⟩, ⟨360000, 18.0, 4500⟩, ⟨720000, 19.5, 9900⟩,
   ⟨1800000, 20.5, 17100⟩, ⟨3600000, 23.0, 62100⟩, ⟨4800000, 30.5, 540000⟩]

/-- `TABELA_SIMPLES.get(anexo)`: the five annex tables keyed by name. -/
def TABELA_SIMPLES (anexo : String) : Option (List Faixa) :=
  if anexo = "anexo_i" then some faixas_anexo_i
  else if anexo = "anexo_ii" then some faixas_anexo_ii
  else if anexo = "anexo_iii" then some faixas_anexo_iii
  else if anexo = "anexo_iv" then some faixas_anexo_iv
  else if anexo = "anexo_v" then some faixas_anexo_v
  else none

/-- `SUBLIMITE_ESTADUAL = 3600000`. -/
def SUBLIMITE_ESTADUAL : ℚ := 3600000

/-- `LIMITE_SIMPLES = 4800000`. -/
def LIMITE_SIMPLES : ℚ := 4800000

/-- The `faixa` sub-dict of a successful result:
`{"limite", "aliquota_nominal", "parcela_deduzir"}`. -/
structure FaixaInfo where
  limite : ℚ
  aliquota_nominal : ℚ
  parcela_deduzir : ℚ
  deriving DecidableEq

/-- The dict returned by `calcular_simples_nacional`.  Keys absent on the
`EXCEDIDO` path are `Option` fields defaulting to `none`; the `fator_r` key
holds the (optional) argument, hence `Option (Option ℚ)`. -/
structure SimplesResult where
  status : String
  aliquota_efetiva : ℚ
  valor_das : ℚ
  mensagem : Option String := none
  anexo : Option String := none
  faixa : Option FaixaInfo := none
  receita_bruta_12m : Option ℚ := none
  receita_mensal : Option ℚ := none
  excede_sublimite_estadual : Option Bool := none
  fator_r : Option (Option ℚ) := none
  deriving DecidableEq

/-- The Fator R annex override of `calcular_simples_nacional`
(fiscal_engine.py lines 116–120): when `fator_r` is supplied and the annex is
III or V, `fator_r >= 0.28` forces `anexo_iii`, otherwise `anexo_v`. -/
def anexoEfetivo (anexo : String) (fator_r : Option ℚ) : String :=
  match fator_r with
  | some f =>
      if anexo = "anexo_iii" ∨ anexo = "anexo_v" then
        if (0.28 : ℚ) ≤ f then "anexo_iii" else "anexo_v"
      else anexo
  | none => anexo

/-- The bracket-search loop of `calcular_simples_nacional` (fiscal_engine.py
lines 127–132): the first `faixa` whose `limite` is `≥ receita_bruta_12m`
(`for`/`break`), `none` if the loop falls through. -/
def encontrarFaixa (receita_bruta_12m : ℚ) : List Faixa → Option Faixa
  | [] => none
  | fx :: rest =>
      if receita_bruta_12m ≤ fx.limite then some fx
      else encontrarFaixa receita_bruta_12m rest

/-- `FiscalEngine.calcular_simples_nacional` (fiscal_engine.py lines 82–182).
The `ValueError` for an unknown annex becomes `Except.error`. -/
def calcular_simples_nacional (receita_bruta_12m receita_mensal : ℚ)
    (anexo : String) (fator_r : Option ℚ := none) :
    Except String SimplesResult :=
  if LIMITE_SIMPLES < receita_bruta_12m then
    .ok { status := "EXCEDIDO",
          mensagem :=
            some "Receita excede o limite do Simples Nacional (R$ 4,800,000.00)",
          aliquota_efetiva := 0, valor_das := 0 }
  else
    let anexo := anexoEfetivo anexo fator_r
    match TABELA_SIMPLES anexo with
    | none => .error ("Anexo inválido: " ++ anexo)
    | some faixas =>
        let faixa_encontrada :=
          (encontrarFaixa receita_bruta_12m faixas).getD
            (faixas.getLastD ⟨0, 0, 0⟩)
        let aliquota_nominal := faixa_encontrada.aliquota / 100
        let parcela_deduzir := faixa_encontrada.deducao
        let rbt12 := receita_bruta_12m
        let aliquota_efetiva :=
          if 0 < rbt12 then ((rbt12 * aliquota_nominal) - parcela_deduzir) / rbt12
          else 0
        let aliquota_efetiva := max aliquota_efetiva 0.04
        let valor_das := quantizeHalfUp 2 (receita_mensal * aliquota_efetiva)
        .ok { status := "SUCESSO",
              anexo := some anexo,
              faixa := some ⟨faixa_encontrada.limite, aliquota_nominal * 100,
                             parcela_deduzir⟩,
              receita_bruta_12m := some receita_bruta_12m,
              receita_mensal := some receita_mensal,
              aliquota_efetiva := aliquota_efetiva * 100,
              valor_das := valor_das,
              excede_sublimite_estadual :=
                some (if SUBLIMITE_ESTADUAL < receita_bruta_12m then true else false),
              fator_r := some fator_r }

/-- The dict returned by `calcular_fator_r`; keys absent on the `ERRO` path
default to `none`. -/
structure FatorRResult where
  status : String
  fator_r : ℚ
  mensagem : Option String := none
  folha_salarios_12m : Option ℚ := none
  receita_bruta_12m : Option ℚ := none
  fator_r_percentual : Option ℚ := none
  enquadramento : Option String := none
  descricao : Option String := none
  beneficia_anexo_iii : Option Bool := none
  deriving DecidableEq

/-- `FiscalEngine.calcular_fator_r` (fiscal_engine.py lines 184–240). -/
def calcular_fator_r (folha_salarios_12m receita_bruta_12m : ℚ) : FatorRResult :=
  if receita_bruta_12m ≤ 0 then
    { status := "ERRO",
      mensagem := some "Receita Bruta deve ser maior que zero",
      fator_r := 0 }
  else
    let fator_r := quantizeHalfUp 4 (folha_salarios_12m / receita_bruta_12m)
    let enquadramento :=
      if (0.28 : ℚ) ≤ fator_r then "ANEXO_III" else "ANEXO_V"
    let descricao :=
      if (0.28 : ℚ) ≤ fator_r then
        "Fator R >= 28%: Enquadramento no Anexo III (alíquotas reduzidas)"
      else
        "Fator R < 28%: Enquadramento no Anexo V (alíquotas majoradas)"
    { status := "SUCESSO",
      folha_salarios_12m := some folha_salarios_12m,
      receita_bruta_12m := some receita_bruta_12m,
      fator_r := fator_r,
      fator_r_percentual := some (fator_r * 100),
      enquadramento := some enquadramento,
      descricao := some descricao,
      beneficia_anexo_iii := some (if (0.28 : ℚ) ≤ fator_r then true else false) }

/-! ## OCR engine (`src/engines/ocr_engine.py`)

The engine works on Python `re` patterns.  We embed the constructs those
patterns actually use as the inductive `RE`, with an executable matcher
`ends` that returns the lengths of all matching prefixes in backtracking
preference order (greedy alternatives longest-first, lazy shortest-first),
exactly the order in which Python's engine tries them, so that the head of
the list is the match Python produces. -/

/-- The `re` constructs used by the OCR patterns.  `dot` matches any
character except a newline (no `re.DOTALL` is used in the source). -/
inductive RE where
  | eps : RE
  | chr : Char → RE
  | cls : List Char → RE
  | digit : RE
  | space : RE
  | dot : RE
  | seq : RE → RE → RE
  | alt : RE → RE → RE
  | star : RE → RE
  | lazystar : RE → RE
  | opt : RE → RE

/-- Concatenation of a list of regexes. -/
def reSeq (l : List RE) : RE := l.foldr RE.seq RE.eps

/-- A literal string as a regex. -/
def reStr (s : String) : RE := reSeq (s.toList.map RE.chr)

/-- `r{n}`: exactly `n` repetitions. -/
def reN (r : RE) (n : Nat) : RE := reSeq (List.replicate n r)

/-- `r{lo,hi}` (greedy): `lo` required repetitions followed by `hi - lo`
greedy optional ones. -/
def reRange (r : RE) (lo hi : Nat) : RE :=
  RE.seq (reN r lo) (reN (RE.opt r) (hi - lo))

/-- ASCII lowercasing, the case folding `re.IGNORECASE` performs on the
ASCII-only letters occurring in the extraction patterns. -/
def asciiLower (c : Char) : Char :=
  if 'A' ≤ c ∧ c ≤ 'Z' then Char.ofNat (c.toNat + 32) else c

/-- Single-character comparison, optionally case-insensitive. -/
def charEq (ci : Bool) (a b : Char) : Bool :=
  if ci then asciiLower a == asciiLower b else a == b

/-- Python `\s` restricted to the ASCII whitespace characters. -/
def isPySpace (c : Char) : Bool :=
  c == ' ' || c == '\t' || c == '\n' || c == '\r' ||
    c == '\x0b' || c == '\x0c'

/-- One level of `ends`: match lengths of a regex against a prefix of the
input, in backtracking preference order; `recur` resolves the recursive
star occurrences at one fuel level lower. -/
def endsAux (ci : Bool) (recur : RE → List Char → List Nat) :
    RE → List Char → List Nat
  | .eps, _ => [0]
  | .chr _, [] => []
  | .chr a, c :: _ => if charEq ci a c then [1] else []
  | .cls _, [] => []
  | .cls cs, c :: _ => if cs.any (fun a => charEq ci a c) then [1] else []
  | .digit, [] => []
  | .digit, c :: _ => if c.isDigit then [1] else []
  | .space, [] => []
  | .space, c :: _ => if isPySpace c then [1] else []
  | .dot, [] => []
  | .dot, c :: _ => if c == '\n' then [] else [1]
  | .seq a b, s =>
      (endsAux ci recur a s).flatMap fun i =>
        (endsAux ci recur b (s.drop i)).map (i + ·)
  | .alt a b, s => endsAux ci recur a s ++ endsAux ci recur b s
  | .star a, s =>
      ((endsAux ci recur a s).filter (0 < ·)).flatMap (fun i =>
        (recur (.star a) (s.drop i)).map (i + ·)) ++ [0]
  | .lazystar a, s =>
      0 :: ((endsAux ci recur a s).filter (0 < ·)).flatMap (fun i =>
        (recur (.lazystar a) (s.drop i)).map (i + ·))
  | .opt a, s => endsAux ci recur a s ++ [0]

/-- Lengths of all prefixes of `s` matching `re`, in backtracking
preference order.  Each star iteration consumes at least one character, so
fuel `s.length + 1` is enough for an exact result. -/
def ends (ci : Bool) : Nat → RE → List Char → List Nat
  | 0, _, _ => []
  | fuel + 1, re, s => endsAux ci (ends ci fuel) re s

/-- A classification pattern: a regex plus optional `\b` word-boundary
anchors at either end (the only positions `\b` occurs in the source). -/
structure Pat where
  lb : Bool := false
  re : RE
  rb : Bool := false

/-- Python `\w` on the character repertoire of the documents: ASCII
alphanumerics, underscore and the Latin-1 letters. -/
def isWordChar (c : Char) : Bool :=
  c.isAlphanum || c == '_' ||
    (192 ≤ c.toNat && c.toNat ≤ 255 && c.toNat != 215 && c.toNat != 247)

/-- A `\b` word boundary holds between two (optional) adjacent characters
when exactly one of them is a word character. -/
def wordB (prev next : Option Char) : Bool :=
  (prev.elim false isWordChar) != (next.elim false isWordChar)

/-- Does the pattern match starting exactly at the head of `s` (with `prev`
the character preceding that position)? -/
def patMatchAt (ci : Bool) (p : Pat) (prev : Option Char) (s : List Char) : Bool :=
  (!p.lb || wordB prev s.head?) &&
  (ends ci (s.length + 1) p.re s).any (fun e =>
    !p.rb || wordB (if e = 0 then prev else (s.take e).getLast?) (s.drop e).head?)

/-- Scan for a match at each start position, left to right. -/
def searchAux (ci : Bool) (p : Pat) : Option Char → List Char → Bool
  | prev, [] => patMatchAt ci p prev []
  | prev, c :: rest =>
      patMatchAt ci p prev (c :: rest) || searchAux ci p (some c) rest

/-- `re.search(p, text) is not None`. -/
def research (ci : Bool) (p : Pat) (text : String) : Bool :=
  searchAux ci p none text.toList

/-- An extraction pattern split at its single capture group: the part
before the group and the group itself (all extraction patterns in the
source have this shape, with nothing after the group). -/
structure CapPat where
  pre : RE
  grp : RE

/-- The capture of the first full match starting at the head of `s`, in
Python's backtracking preference order. -/
def capAt (ci : Bool) (cp : CapPat) (s : List Char) : Option (List Char) :=
  ((ends ci (s.length + 1) cp.pre s).flatMap fun i =>
    (ends ci (s.length + 1) cp.grp (s.drop i)).map fun j =>
      (s.drop i).take j).head?

/-- Scan start positions left to right for the first full match. -/
def searchCapAux (ci : Bool) (cp : CapPat) : List Char → Option (List Char)
  | [] => capAt ci cp []
  | c :: rest =>
      match capAt ci cp (c :: rest) with
      | some g => some g
      | none => searchCapAux ci cp rest

/-- `re.search(p, text).group(1)` (`none` when there is no match). -/
def searchCapture (ci : Bool) (cp : CapPat) (text : String) : Option String :=
  (searchCapAux ci cp text.toList).map String.mk

/-- Python `str.lower()` on the ASCII and Latin-1 letters occurring in the
engine's texts. -/
def pythonLower (c : Char) : Char :=
  if 'A' ≤ c ∧ c ≤ 'Z' then Char.ofNat (c.toNat + 32)
  else if 192 ≤ c.toNat ∧ c.toNat ≤ 222 ∧ c.toNat ≠ 215 then
    Char.ofNat (c.toNat + 32)
  else c

/-- `texto.lower()`. -/
def lowerStr (s : String) : String := String.mk (s.toList.map pythonLower)

/-- Does `hay` start with `needle`? (helper for the Python `in` operator). -/
def listStarts : List Char → List Char → Bool
  | [], _ => true
  | _ :: _, [] => false
  | n :: ns, h :: hs => n == h && listStarts ns hs

/-- Occurrence of `needle` anywhere in the list. -/
def listContains (needle : List Char) : List Char → Bool
  | [] => listStarts needle []
  | h :: hs => listStarts needle (h :: hs) || listContains needle hs

/-- Python's `needle in hay` on strings. -/
def strContains (hay needle : String) : Bool :=
  listContains needle.toList hay.toList

/-- `\s*`. -/
def sp : RE := RE.star RE.space

/-- `PADROES_CLASSIFICACAO` (ocr_engine.py lines 45–87): ordered pattern
table, insertion order preserved. -/
def PADROES_CLASSIFICACAO : List (String × List Pat) :=
  [("nfe",
    [⟨false, reSeq [reStr "nota", sp, reStr "fiscal", sp, reStr "eletr",
       RE.cls ['o', 'ô'], reStr "nica"], false⟩,
     ⟨false, reSeq [reStr "nf", RE.opt (RE.chr '-'), RE.chr 'e'], false⟩,
     ⟨false, reSeq [reStr "chave", sp, reStr "de", sp, reStr "acesso",
       RE.star RE.dot, reN RE.digit 44], false⟩,
     ⟨false, reStr "danfe", false⟩]),
   ("nfse",
    [⟨false, reSeq [reStr "nota", sp, reStr "fiscal", sp, reStr "de", sp,
       reStr "servi", RE.cls ['c', 'ç'], RE.chr 'o'], false⟩,
     ⟨false, reSeq [reStr "nfs", RE.opt (RE.chr '-'), RE.chr 'e'], false⟩,
     ⟨false, reSeq [reStr "iss", sp, reStr "retido"], false⟩]),
   ("cte",
    [⟨false, reSeq [reStr "conhecimento", sp, reStr "de", sp,
       reStr "transporte"], false⟩,
     ⟨false, reSeq [reStr "ct", RE.opt (RE.chr '-'), RE.chr 'e'], false⟩,
     ⟨false, reStr "dacte", false⟩]),
   ("darf",
    [⟨false, reSeq [reStr "documento", sp, reStr "de", sp, reStr "arrecada",
       RE.cls ['c', 'ç'], RE.cls ['a', 'ã'], RE.chr 'o', RE.star RE.dot,
       reStr "receita"], false⟩,
     ⟨false, reStr "darf", false⟩,
     ⟨false, reSeq [RE.chr 'c', RE.cls ['o', 'ó'], reStr "digo", sp,
       reStr "da", sp, reStr "receita"], false⟩]),
   ("das",
    [⟨false, reSeq [reStr "documento", sp, reStr "de", sp, reStr "arrecada",
       RE.cls ['c', 'ç'], RE.cls ['a', 'ã'], RE.chr 'o', RE.star RE.dot,
       reStr "simples"], false⟩,
     ⟨false, reSeq [reStr "simples", sp, reStr "nacional"], false⟩,
     ⟨true, reStr "das", true⟩]),
   ("gps",
    [⟨false, reSeq [reStr "guia", sp, reStr "da", sp, reStr "previd",
       RE.cls ['e', 'ê'], reStr "ncia", sp, reStr "social"], false⟩,
     ⟨true, reStr "gps", true⟩,
     ⟨false, reStr "inss", false⟩]),
   ("dctfweb",
    [⟨false, reStr "dctfweb", false⟩,
     ⟨false, reSeq [reStr "dctf", RE.opt (RE.chr '-'), reStr "web"], false⟩,
     ⟨false, reSeq [reStr "declara", RE.cls ['c', 'ç'], RE.cls ['a', 'ã'],
       RE.chr 'o', RE.star RE.dot, RE.chr 'd', RE.cls ['e', 'é'],
       reStr "bitos", RE.star RE.dot, reStr "tribut", RE.cls ['a', 'á'],
       reStr "rios"], false⟩]),
   ("certidao",
    [⟨false, reSeq [reStr "certid", RE.cls ['a', 'ã'], RE.chr 'o', sp,
       reStr "negativa"], false⟩,
     ⟨false, reStr "cnd", false⟩,
     ⟨false, reSeq [reStr "regularidade", sp, reStr "fiscal"], false⟩])]

/-- Per-type score list of `_classificar_documento`, in table order:
25 per matching pattern, capped at 100. -/
def scoresList (texto : String) : List (String × ℕ) :=
  PADROES_CLASSIFICACAO.map fun tp =>
    (tp.1,
     min (tp.2.foldl
       (fun sc p => if research false p (lowerStr texto) then sc + 25 else sc) 0)
       100)

/-- Python's `max(scores, key=scores.get)`: the first entry attaining the
maximal score (later entries replace only on strictly greater score). -/
def pickMax (x : String × ℕ) (xs : List (String × ℕ)) : String × ℕ :=
  xs.foldl (fun b a => if b.2 < a.2 then a else b) x

/-- `OCREngine._classificar_documento` (ocr_engine.py lines 248–277).
Python's `if tipo_esperado:` treats both `None` and `""` as absent. -/
def classificar_documento (texto : String) (tipo_esperado : Option String) :
    String × ℕ :=
  if tipo_esperado.getD "" ≠ "" then (tipo_esperado.getD "", 100)
  else
    match scoresList texto with
    | [] => ("desconhecido", 0)
    | x :: xs =>
        let melhor := pickMax x xs
        if 0 < melhor.2 then melhor else ("desconhecido", 0)

/-- `PADROES_EXTRACAO["cnpj"]`. -/
def cnpjCap : CapPat :=
  ⟨.eps, reSeq [reN .digit 2, .chr '.', reN .digit 3, .chr '.', reN .digit 3,
    .chr '/', reN .digit 4, .chr '-', reN .digit 2]⟩

/-- `PADROES_EXTRACAO["cpf"]`. -/
def cpfCap : CapPat :=
  ⟨.eps, reSeq [reN .digit 3, .chr '.', reN .digit 3, .chr '.', reN .digit 3,
    .chr '-', reN .digit 2]⟩

/-- `PADROES_EXTRACAO["valor"]`. -/
def valorCap : CapPat :=
  ⟨reSeq [.alt (reStr "R$") (reStr "BRL"), sp],
   reSeq [reRange .digit 1 3, .star (.seq (.cls ['.', ',']) (reN .digit 3)),
     .cls ['.', ','], reN .digit 2]⟩

/-- `PADROES_EXTRACAO["data"]`. -/
def dataCap : CapPat :=
  ⟨.eps, reSeq [reN .digit 2, .chr '/', reN .digit 2, .chr '/', reN .digit 4]⟩

/-- `PADROES_EXTRACAO["chave_nfe"]`. -/
def chaveNfeCap : CapPat := ⟨.eps, reN .digit 44⟩

/-- `PADROES_EXTRACAO["codigo_barras"]`. -/
def codigoBarrasCap : CapPat := ⟨.eps, reRange .digit 47 48⟩

/-- `PADROES_EXTRACAO["ncm"]`. -/
def ncmCap : CapPat :=
  ⟨reSeq [reStr "NCM", RE.star (RE.alt (RE.chr ':') RE.space)], reN .digit 8⟩

/-- `PADROES_EXTRACAO["cfop"]`. -/
def cfopCap : CapPat :=
  ⟨reSeq [reStr "CFOP", RE.star (RE.alt (RE.chr ':') RE.space)], reN .digit 4⟩

/-- The NF number pattern of `_extrair_dados`:
`n[f]?-?e?\s*n[º°]?\s*([0-9]+)`. -/
def numeroNfCap : CapPat :=
  ⟨reSeq [.chr 'n', .opt (.chr 'f'), .opt (.chr '-'), .opt (.chr 'e'), sp,
    .chr 'n', .opt (.cls ['º', '°']), sp],
   .seq .digit (.star .digit)⟩

/-- The DAS accrual-period pattern of `_extrair_dados`:
`per[ií]odo.*?([0-9]{2}/[0-9]{4})`. -/
def periodoCap : CapPat :=
  ⟨reSeq [reStr "per", .cls ['i', 'í'], reStr "odo", .lazystar .dot],
   reSeq [reN .digit 2, .chr '/', reN .digit 4]⟩

/-- Integer value of a digit list (used for Python `float(...)`). -/
def digitsVal (l : List Char) : ℕ := l.foldl (fun n c => 10 * n + (c.toNat - 48)) 0

/-- Python `float(...)` restricted to the plain decimal strings the `valor`
normalisation can produce (digits with at most one dot); `none` models the
`ValueError` that the source swallows with `except: pass`. -/
def pyFloatOfString (s : String) : Option ℚ :=
  match s.toList.splitOn '.' with
  | [ip] => if ip ≠ [] ∧ ip.all Char.isDigit then some (digitsVal ip) else none
  | [ip, fp] =>
      if ip ≠ [] ∧ ip.all Char.isDigit ∧ fp ≠ [] ∧ fp.all Char.isDigit then
        some ((digitsVal ip : ℚ) + (digitsVal fp : ℚ) / 10 ^ fp.length)
      else none
  | _ => none

/-- `valor_str.replace(".", "").replace(",", ".")`. -/
def brToDecimal (s : String) : String :=
  String.mk ((s.toList.filter (fun c => c ≠ '.')).map
    (fun c => if c = ',' then '.' else c))

/-- The `dados` dict produced by `_extrair_dados`; absent keys are `none`. -/
structure DadosExtraidos where
  cnpj : Option String := none
  cpf : Option String := none
  valor : Option String := none
  data : Option String := none
  chave_nfe : Option String := none
  codigo_barras : Option String := none
  ncm : Option String := none
  cfop : Option String := none
  cnpj_formatado : Option String := none
  valor_float : Option ℚ := none
  tipo_documento : Option String := none
  numero_nf : Option String := none
  periodo_apuracao : Option String := none
  deriving DecidableEq

/-- `OCREngine._extrair_dados` (ocr_engine.py lines 279–321). -/
def extrair_dados (texto : String) (tipo : String) : DadosExtraidos :=
  let cnpj0 := searchCapture true cnpjCap texto
  let base : DadosExtraidos :=
    { cnpj := cnpj0.map fun c => String.mk (c.toList.filter Char.isDigit)
      cpf := searchCapture true cpfCap texto
      valor := searchCapture true valorCap texto
      data := searchCapture true dataCap texto
      chave_nfe := searchCapture true chaveNfeCap texto
      codigo_barras := searchCapture true codigoBarrasCap texto
      ncm := searchCapture true ncmCap texto
      cfop := searchCapture true cfopCap texto
      cnpj_formatado := cnpj0
      valor_float :=
        (searchCapture true valorCap texto).bind fun v =>
          pyFloatOfString (brToDecimal v) }
  if tipo = "nfe" then
    { base with
        tipo_documento := some "Nota Fiscal Eletrônica"
        numero_nf := searchCapture false numeroNfCap (lowerStr texto) }
  else if tipo = "das" then
    { base with
        tipo_documento := some "DAS - Simples Nacional"
        periodo_apuracao := searchCapture false periodoCap (lowerStr texto) }
  else base

/-- Numeric value of a digit character (`int(d)`). -/
def charDigit (c : Char) : ℕ := c.toNat - 48

/-- The check-digit computation `calc_digito` of `_validar_cnpj`
(ocr_engine.py lines 361–364): weighted sum mod 11, digit `0` when the
remainder is below 2, else `11 - remainder`. -/
def calc_digito (ds : List ℕ) (peso : List ℕ) : ℕ :=
  let soma := (ds.zip peso).foldl (fun s p => s + p.1 * p.2) 0
  let resto := soma % 11
  if resto < 2 then 0 else 11 - resto

/-- Weight vector for the first check digit. -/
def peso1 : List ℕ := [5, 4, 3, 2, 9, 8, 7, 6, 5, 4, 3, 2]

/-- Weight vector for the second check digit. -/
def peso2 : List ℕ := [6, 5, 4, 3, 2, 9, 8, 7, 6, 5, 4, 3, 2]

/-- `OCREngine._validar_cnpj` on the digit list obtained after stripping
non-digits (ocr_engine.py lines 347–372). -/
def validar_cnpj_digits (ds : List ℕ) : Bool :=
  if ds.length ≠ 14 then false
  else if ds = List.replicate 14 (ds.headD 0) then false
  else
    let d1 := calc_digito (ds.take 12) peso1
    let d2 := calc_digito (ds.take 12 ++ [d1]) peso2
    decide (ds.drop 12 = [d1, d2])

/-- `OCREngine._validar_cnpj` on the raw string. -/
def validar_cnpj (cnpj : String) : Bool :=
  validar_cnpj_digits ((cnpj.toList.filter Char.isDigit).map charDigit)

/-- The simulated DAS document produced by `_simular_texto_ocr`
(ocr_engine.py lines 209–217), transcribed with its exact indentation. -/
def texto_das_simulado : String :=
  "\n            DOCUMENTO DE ARRECADAÇÃO DO SIMPLES NACIONAL\n            DAS\n            CNPJ: 12.345.678/0001-00\n            Período de Apuração: 12/2025\n            Data Vencimento: 20/01/2026\n            Valor Total: R$ 850,00\n            Código de Barras: 85890000008500000000000000012345678901234567\n            "

/-- A text containing exactly the four fragments named by the DAS
end-to-end scenario and nothing else. -/
def texto_das_fragmentos : String :=
  "CNPJ: 12.345.678/0001-00\nPeríodo de Apuração: 12/2025\nValor Total: R$ 850,00\nDAS"

/-- The four fragments of the DAS end-to-end scenario. -/
def fragmentos_das : List String :=
  ["CNPJ: 12.345.678/0001-00", "Período de Apuração: 12/2025",
   "Valor Total: R$ 850,00", "DAS"]

/-! ## SPED audit engine (`src/engines/sped_engine.py`) -/

/-- `Severidade` (sped_engine.py lines 24–27). -/
inductive Severidade where
  | informativo : Severidade
  | aviso : Severidade
  | critico : Severidade
  deriving DecidableEq, BEq

/-- `NaoConformidade` (sped_engine.py lines 30–48). -/
structure NaoConformidade where
  severidade : Severidade
  regra : String
  descricao : String
  referencia_documento : Option String := none
  valor_envolvido : Option ℚ := none
  sugestao_correcao : Option String := none
  deriving DecidableEq

/-- The fields of the parsed SPED summary that
`gerar_relatorio_auditoria` reads. -/
structure DadosSped where
  cnpj : Option String := none
  periodo : Option String := none
  deriving DecidableEq

/-- The report dict of `gerar_relatorio_auditoria`; `por_severidade`
becomes the three count fields.  The wall-clock `data_auditoria` key is not
part of the pure embedding. -/
structure RelatorioAuditoria where
  cnpj : Option String
  periodo : Option String
  score_conformidade : ℚ
  total_nao_conformidades : ℕ
  criticos : ℕ
  avisos : ℕ
  informativos : ℕ
  nao_conformidades : List NaoConformidade
  recomendacao_geral : String
  deriving DecidableEq

/-- `SPEDEngine._gerar_recomendacao` (sped_engine.py lines 302–311). -/
def gerar_recomendacao (score : ℚ) (criticos : ℕ) : String :=
  if 90 ≤ score then "Excelente conformidade. Manter monitoramento regular."
  else if 70 ≤ score then "Boa conformidade. Corrigir avisos identificados."
  else if 50 ≤ score then
    "Conformidade moderada. Priorizar correção de itens críticos."
  else
    "Conformidade baixa. AÇÃO URGENTE: Regularizar itens críticos imediatamente."

/-- `SPEDEngine.gerar_relatorio_auditoria` (sped_engine.py lines 266–300).
`round(score, 2)` in the source is the identity because the score is always
an integer. -/
def gerar_relatorio_auditoria (ncs : List NaoConformidade)
    (dados_sped : DadosSped) : RelatorioAuditoria :=
  let criticos := ncs.countP fun nc => decide (nc.severidade = .critico)
  let avisos := ncs.countP fun nc => decide (nc.severidade = .aviso)
  let informativos := ncs.countP fun nc => decide (nc.severidade = .informativo)
  let total := ncs.length
  let score : ℚ :=
    if total = 0 then 100
    else
      max 0 (100 - ((criticos : ℚ) * 10 + (avisos : ℚ) * 5 + (informativos : ℚ) * 1))
  { cnpj := dados_sped.cnpj
    periodo := dados_sped.periodo
    score_conformidade := score
    total_nao_conformidades := total
    criticos := criticos
    avisos := avisos
    informativos := informativos
    nao_conformidades := ncs
    recomendacao_geral := gerar_recomendacao score criticos }

/-- The CRITICO finding `cruzar_dados_fiscais` produces for an e-CAC
pendency (sped_engine.py lines 242–249). -/
def pendenciaEcac : NaoConformidade :=
  { severidade := .critico
    regra := "CRUZ-001"
    descricao := "Pendência identificada no e-CAC"
    referencia_documento := some "Consulta e-CAC"
    sugestao_correcao := some "Regularizar pendências junto à RFB" }

/-! ## Theorems about the fiscal engine -/

theorem tabela_anexo_iii : TABELA_SIMPLES "anexo_iii" = some faixas_anexo_iii := rfl

theorem tabela_anexo_v : TABELA_SIMPLES "anexo_v" = some faixas_anexo_v := rfl

theorem anexoEfetivo_servicos (a : String) (f : ℚ)
    (h : a = "anexo_iii" ∨ a = "anexo_v") :
    anexoEfetivo a (some f) =
      if (0.28 : ℚ) ≤ f then "anexo_iii" else "anexo_v" := by
  rcases h with h | h <;> subst h <;> simp [anexoEfetivo]

/-- C1: when `fator_r` is supplied and the caller's annex is III or V, the
result of `calcular_simples_nacional` does not depend on the caller's annex
argument, and (within the statutory limit) the annex actually used is III
exactly when `fator_r ≥ 0.28`, else V. -/
theorem fator_r_override_precedence (r m f : ℚ) (a₁ a₂ : String)
    (h₁ : a₁ = "anexo_iii" ∨ a₁ = "anexo_v")
    (h₂ : a₂ = "anexo_iii" ∨ a₂ = "anexo_v") :
    calcular_simples_nacional r m a₁ (some f) =
      calcular_simples_nacional r m a₂ (some f) ∧
    (r ≤ LIMITE_SIMPLES →
      ∃ res, calcular_simples_nacional r m a₁ (some f) = .ok res ∧
        res.status = "SUCESSO" ∧
        res.anexo = some (if (0.28 : ℚ) ≤ f then "anexo_iii" else "anexo_v")) := by
  have he : anexoEfetivo a₁ (some f) = anexoEfetivo a₂ (some f) := by
    rw [anexoEfetivo_servicos a₁ f h₁, anexoEfetivo_servicos a₂ f h₂]
  constructor
  · unfold calcular_simples_nacional
    rw [he]
  · intro hle
    unfold calcular_simples_nacional
    rw [if_neg (not_lt.mpr hle), anexoEfetivo_servicos a₁ f h₁]
    by_cases hf : (0.28 : ℚ) ≤ f
    · rw [if_pos hf]
      exact ⟨_, rfl, rfl, rfl⟩
    · rw [if_neg hf]
      exact ⟨_, rfl, rfl, rfl⟩

/-- C1 witness: concrete instantiation at
`revenue_12m = 500000`, `monthly_revenue = 50000`, `fator_r = 0.30`. -/
theorem fator_r_override_precedence_witness :
    ("anexo_iii" = "anexo_iii" ∨ ("anexo_iii" : String) = "anexo_v") ∧
    ("anexo_v" = "anexo_iii" ∨ ("anexo_v" : String) = "anexo_v") ∧
    calcular_simples_nacional 500000 50000 "anexo_iii" (some 0.30) =
      calcular_simples_nacional 500000 50000 "anexo_v" (some 0.30) ∧
    ∃ res, calcular_simples_nacional 500000 50000 "anexo_iii" (some 0.30) =
        .ok res ∧ res.status = "SUCESSO" ∧ res.anexo = some "anexo_iii" := by
  have h := fator_r_override_precedence 500000 50000 0.30 "anexo_iii" "anexo_v"
    (Or.inl rfl) (Or.inr rfl)
  obtain ⟨heq, hres⟩ := h
  obtain ⟨res, hok, hst, han⟩ := hres (by norm_num [LIMITE_SIMPLES])
  refine ⟨Or.inl rfl, Or.inr rfl, heq, res, hok, hst, ?_⟩
  rw [han, if_pos (by norm_num)]

/-- C2: above the statutory ceiling of 4,800,000, `calcular_simples_nacional`
returns an `EXCEDIDO` result with zero effective rate and zero tax, for every
monthly revenue, annex and Fator R, without raising. -/
theorem limite_simples_excedido (r m : ℚ) (a : String) (f : Option ℚ)
    (h : LIMITE_SIMPLES < r) :
    calcular_simples_nacional r m a f =
      .ok { status := "EXCEDIDO",
            mensagem :=
              some "Receita excede o limite do Simples Nacional (R$ 4,800,000.00)",
            aliquota_efetiva := 0, valor_das := 0 } := by
  unfold calcular_simples_nacional
  rw [if_pos h]

/-- C2 witness: `revenue_12m = 5000000` with an invalid annex string and a
Fator R that would otherwise force annex V. -/
theorem limite_simples_excedido_witness :
    LIMITE_SIMPLES < (5000000 : ℚ) ∧
    calcular_simples_nacional 5000000 123 "anexo_invalido" (some 0.10) =
      .ok { status := "EXCEDIDO",
            mensagem :=
              some "Receita excede o limite do Simples Nacional (R$ 4,800,000.00)",
            aliquota_efetiva := 0, valor_das := 0 } :=
  ⟨by norm_num [LIMITE_SIMPLES],
   limite_simples_excedido 5000000 123 "anexo_invalido" (some 0.10)
     (by norm_num [LIMITE_SIMPLES])⟩

/-- C3: success postcondition of `calcular_simples_nacional` — the bracket is
the first one of the annex table whose ceiling is `≥ revenue_12m` (last
bracket as fallback), the effective rate is
`(revenue_12m × nominal_rate − deduction) / revenue_12m` floored at `0.04`,
and the tax due is `monthly_revenue × effective_rate` rounded half-up to two
decimals. -/
theorem simples_nacional_sucesso (r m : ℚ) (a : String) (faixas : List Faixa)
    (fx : Faixa) (h0 : 0 < r) (hle : r ≤ LIMITE_SIMPLES)
    (ht : TABELA_SIMPLES a = some faixas)
    (hfx : fx = (encontrarFaixa r faixas).getD (faixas.getLastD ⟨0, 0, 0⟩)) :
    calcular_simples_nacional r m a none =
      .ok { status := "SUCESSO",
            anexo := some a,
            faixa := some ⟨fx.limite, fx.aliquota / 100 * 100, fx.deducao⟩,
            receita_bruta_12m := some r,
            receita_mensal := some m,
            aliquota_efetiva :=
              max ((r * (fx.aliquota / 100) - fx.deducao) / r) 0.04 * 100,
            valor_das :=
              quantizeHalfUp 2
                (m * max ((r * (fx.aliquota / 100) - fx.deducao) / r) 0.04),
            excede_sublimite_estadual :=
              some (if SUBLIMITE_ESTADUAL < r then true else false),
            fator_r := some none } := by
  unfold calcular_simples_nacional
  rw [if_neg (not_lt.mpr hle)]
  show (match TABELA_SIMPLES (anexoEfetivo a none) with
        | none => _ | some _ => _) = _
  rw [show anexoEfetivo a none = a from rfl, ht]
  simp only [← hfx, if_pos h0]

/-- C3 witness: `revenue_12m = 500000`, `monthly_revenue = 50000`,
`anexo_iii` selects the bracket `⟨720000, 13.5%, 17640⟩`, the effective rate
is `9.972%` and the DAS due is `4986.00`. -/
theorem simples_nacional_sucesso_witness :
    (0 : ℚ) < 500000 ∧ (500000 : ℚ) ≤ LIMITE_SIMPLES ∧
    TABELA_SIMPLES "anexo_iii" = some faixas_anexo_iii ∧
    (⟨720000, 13.5, 17640⟩ : Faixa) =
      (encontrarFaixa 500000 faixas_anexo_iii).getD
        (faixas_anexo_iii.getLastD ⟨0, 0, 0⟩) ∧
    calcular_simples_nacional 500000 50000 "anexo_iii" none =
      .ok { status := "SUCESSO",
            anexo := some "anexo_iii",
            faixa := some ⟨720000, 13.5, 17640⟩,
            receita_bruta_12m := some 500000,
            receita_mensal := some 50000,
            aliquota_efetiva := 9.972,
            valor_das := 4986,
            excede_sublimite_estadual := some false,
            fator_r := some none } := by
  have hfx : (⟨720000, 13.5, 17640⟩ : Faixa) =
      (encontrarFaixa 500000 faixas_anexo_iii).getD
        (faixas_anexo_iii.getLastD ⟨0, 0, 0⟩) := by
    norm_num [encontrarFaixa, faixas_anexo_iii]
  have h := simples_nacional_sucesso 500000 50000 "anexo_iii" faixas_anexo_iii
    ⟨720000, 13.5, 17640⟩ (by norm_num) (by norm_num [LIMITE_SIMPLES]) rfl hfx
  refine ⟨by norm_num, by norm_num [LIMITE_SIMPLES], rfl, hfx, h.trans ?_⟩
  norm_num [quantizeHalfUp, SUBLIMITE_ESTADUAL, SimplesResult.mk.injEq,
    FaixaInfo.mk.injEq]

/-- C8: `calcular_fator_r` returns the payroll/revenue ratio rounded half-up
to 4 decimal places, classified `ANEXO_III` exactly when the rounded ratio is
`≥ 0.28` (else `ANEXO_V`); for non-positive revenue it returns a result-level
`ERRO` with `fator_r = 0` instead of dividing. -/
theorem fator_r_computation (folha receita : ℚ) :
    (0 < receita →
      calcular_fator_r folha receita =
        { status := "SUCESSO",
          folha_salarios_12m := some folha,
          receita_bruta_12m := some receita,
          fator_r := quantizeHalfUp 4 (folha / receita),
          fator_r_percentual := some (quantizeHalfUp 4 (folha / receita) * 100),
          enquadramento :=
            some (if (0.28 : ℚ) ≤ quantizeHalfUp 4 (folha / receita) then
              "ANEXO_III" else "ANEXO_V"),
          descricao :=
            some (if (0.28 : ℚ) ≤ quantizeHalfUp 4 (folha / receita) then
              "Fator R >= 28%: Enquadramento no Anexo III (alíquotas reduzidas)"
            else
              "Fator R < 28%: Enquadramento no Anexo V (alíquotas majoradas)"),
          beneficia_anexo_iii :=
            some (if (0.28 : ℚ) ≤ quantizeHalfUp 4 (folha / receita) then
              true else false) }) ∧
    (receita ≤ 0 →
      calcular_fator_r folha receita =
        { status := "ERRO",
          mensagem := some "Receita Bruta deve ser maior que zero",
          fator_r := 0 }) := by
  constructor
  · intro h
    unfold calcular_fator_r
    rw [if_neg (not_le.mpr h)]
  · intro h
    unfold calcular_fator_r
    rw [if_pos h]

/-- C8 witness: `payroll = 140000`, `revenue = 500000` gives the rounded
ratio `0.28` and `ANEXO_III`; `revenue = 0` gives the `ERRO` result. -/
theorem fator_r_computation_witness :
    (0 : ℚ) < 500000 ∧ (0 : ℚ) ≤ 0 ∧
    calcular_fator_r 140000 500000 =
      { status := "SUCESSO",
        folha_salarios_12m := some 140000,
        receita_bruta_12m := some 500000,
        fator_r := 0.28,
        fator_r_percentual := some 28,
        enquadramento := some "ANEXO_III",
        descricao :=
          some "Fator R >= 28%: Enquadramento no Anexo III (alíquotas reduzidas)",
        beneficia_anexo_iii := some true } ∧
    calcular_fator_r 140000 0 =
      { status := "ERRO",
        mensagem := some "Receita Bruta deve ser maior que zero",
        fator_r := 0 } := by
  have h1 := (fator_r_computation 140000 500000).1 (by norm_num)
  have h2 := (fator_r_computation 140000 0).2 (by norm_num)
  have hq : quantizeHalfUp 4 ((140000 : ℚ) / 500000) = 0.28 := by
    norm_num [quantizeHalfUp]
  refine ⟨by norm_num, le_refl 0, h1.trans ?_, h2⟩
  rw [hq]
  norm_num [FatorRResult.mk.injEq]

/-- Auxiliary: the zero-revenue success path of `calcular_simples_nacional`
for a resolved annex table. -/
theorem calc_receita_zero (m : ℚ) (a : String) (f : Option ℚ)
    (faixas : List Faixa) (fx : Faixa)
    (ht : TABELA_SIMPLES (anexoEfetivo a f) = some faixas)
    (hfx : encontrarFaixa 0 faixas = some fx) :
    calcular_simples_nacional 0 m a f =
      .ok { status := "SUCESSO", anexo := some (anexoEfetivo a f),
            faixa := some ⟨fx.limite, fx.aliquota / 100 * 100, fx.deducao⟩,
            receita_bruta_12m := some 0, receita_mensal := some m,
            aliquota_efetiva := 4,
            valor_das := quantizeHalfUp 2 (m * 0.04),
            excede_sublimite_estadual := some false,
            fator_r := some f } := by
  unfold calcular_simples_nacional
  rw [if_neg (by norm_num [LIMITE_SIMPLES] : ¬LIMITE_SIMPLES < (0 : ℚ))]
  show (match TABELA_SIMPLES (anexoEfetivo a f) with
        | none => _ | some _ => _) = _
  rw [ht]
  simp only [hfx, Option.getD_some]
  norm_num [SimplesResult.mk.injEq, FaixaInfo.mk.injEq, SUBLIMITE_ESTADUAL]

/-- C9: zero 12-month revenue with any valid annex does not raise — the
`rbt12 > 0` guard makes the pre-floor rate `0`, so the result is `SUCESSO`
with effective rate exactly the 4% floor and
`valor_das = 0.04 × monthly_revenue` rounded half-up to 2 decimals. -/
theorem simples_nacional_receita_zero (m : ℚ) (a : String) (f : Option ℚ)
    (h : (TABELA_SIMPLES a).isSome) :
    ∃ faixas fx, TABELA_SIMPLES (anexoEfetivo a f) = some faixas ∧
      encontrarFaixa 0 faixas = some fx ∧
      calcular_simples_nacional 0 m a f =
        .ok { status := "SUCESSO",
              anexo := some (anexoEfetivo a f),
              faixa := some ⟨fx.limite, fx.aliquota / 100 * 100, fx.deducao⟩,
              receita_bruta_12m := some 0,
              receita_mensal := some m,
              aliquota_efetiva := 4,
              valor_das := quantizeHalfUp 2 (m * 0.04),
              excede_sublimite_estadual := some false,
              fator_r := some f } := by
  have h1 : encontrarFaixa 0 faixas_anexo_i = some ⟨180000, 4.0, 0⟩ := by
    norm_num [encontrarFaixa, faixas_anexo_i]
  have h2 : encontrarFaixa 0 faixas_anexo_ii = some ⟨180000, 4.5, 0⟩ := by
    norm_num [encontrarFaixa, faixas_anexo_ii]
  have h3 : encontrarFaixa 0 faixas_anexo_iii = some ⟨180000, 6.0, 0⟩ := by
    norm_num [encontrarFaixa, faixas_anexo_iii]
  have h4 : encontrarFaixa 0 faixas_anexo_iv = some ⟨180000, 4.5, 0⟩ := by
    norm_num [encontrarFaixa, faixas_anexo_iv]
  have h5 : encontrarFaixa 0 faixas_anexo_v = some ⟨180000, 15.5, 0⟩ := by
    norm_num [encontrarFaixa, faixas_anexo_v]
  have hiii : ∀ a', anexoEfetivo a' f = "anexo_iii" →
      ∃ faixas fx, TABELA_SIMPLES (anexoEfetivo a' f) = some faixas ∧
        encontrarFaixa 0 faixas = some fx ∧
        calcular_simples_nacional 0 m a' f =
          .ok { status := "SUCESSO", anexo := some (anexoEfetivo a' f),
                faixa := some ⟨fx.limite, fx.aliquota / 100 * 100, fx.deducao⟩,
                receita_bruta_12m := some 0, receita_mensal := some m,
                aliquota_efetiva := 4,
                valor_das := quantizeHalfUp 2 (m * 0.04),
                excede_sublimite_estadual := some false,
                fator_r := some f } := fun a' ha' =>
    ⟨faixas_anexo_iii, ⟨180000, 6.0, 0⟩, by rw [ha']; rfl, h3,
      calc_receita_zero m a' f faixas_anexo_iii ⟨180000, 6.0, 0⟩
        (by rw [ha']; rfl) h3⟩
  have hv : ∀ a', anexoEfetivo a' f = "anexo_v" →
      ∃ faixas fx, TABELA_SIMPLES (anexoEfetivo a' f) = some faixas ∧
        encontrarFaixa 0 faixas = some fx ∧
        calcular_simples_nacional 0 m a' f =
          .ok { status := "SUCESSO", anexo := some (anexoEfetivo a' f),
                faixa := some ⟨fx.limite, fx.aliquota / 100 * 100, fx.deducao⟩,
                receita_bruta_12m := some 0, receita_mensal := some m,
                aliquota_efetiva := 4,
                valor_das := quantizeHalfUp 2 (m * 0.04),
                excede_sublimite_estadual := some false,
                fator_r := some f } := fun a' ha' =>
    ⟨faixas_anexo_v, ⟨180000, 15.5, 0⟩, by rw [ha']; rfl, h5,
      calc_receita_zero m a' f faixas_anexo_v ⟨180000, 15.5, 0⟩
        (by rw [ha']; rfl) h5⟩
  unfold TABELA_SIMPLES at h
  split_ifs at h with e1 e2 e3 e4 e5
  · subst e1
    have he : anexoEfetivo "anexo_i" f = "anexo_i" := by
      cases f <;> simp [anexoEfetivo]
    exact ⟨faixas_anexo_i, ⟨180000, 4.0, 0⟩, by rw [he]; rfl, h1,
      calc_receita_zero m _ f faixas_anexo_i ⟨180000, 4.0, 0⟩ (by rw [he]; rfl) h1⟩
  · subst e2
    have he : anexoEfetivo "anexo_ii" f = "anexo_ii" := by
      cases f <;> simp [anexoEfetivo]
    exact ⟨faixas_anexo_ii, ⟨180000, 4.5, 0⟩, by rw [he]; rfl, h2,
      calc_receita_zero m _ f faixas_anexo_ii ⟨180000, 4.5, 0⟩ (by rw [he]; rfl) h2⟩
  · subst e3
    cases f with
    | none => exact hiii "anexo_iii" rfl
    | some q =>
        by_cases h28 : (0.28 : ℚ) ≤ q
        · exact hiii "anexo_iii" (by simp [anexoEfetivo, h28])
        · exact hv "anexo_iii" (by simp [anexoEfetivo, h28])
  · subst e4
    have he : anexoEfetivo "anexo_iv" f = "anexo_iv" := by
      cases f <;> simp [anexoEfetivo]
    exact ⟨faixas_anexo_iv, ⟨180000, 4.5, 0⟩, by rw [he]; rfl, h4,
      calc_receita_zero m _ f faixas_anexo_iv ⟨180000, 4.5, 0⟩ (by rw [he]; rfl) h4⟩
  · subst e5
    cases f with
    | none => exact hv "anexo_v" rfl
    | some q =>
        by_cases h28 : (0.28 : ℚ) ≤ q
        · exact hiii "anexo_v" (by simp [anexoEfetivo, h28])
        · exact hv "anexo_v" (by simp [anexoEfetivo, h28])
  · simp at h

/-- C9 witness: `revenue_12m = 0`, `monthly_revenue = 10000`, `anexo_iii`
gives `SUCESSO`, effective rate `4%` and `valor_das = 400.00`. -/
theorem simples_nacional_receita_zero_witness :
    (TABELA_SIMPLES "anexo_iii").isSome = true ∧
    calcular_simples_nacional 0 10000 "anexo_iii" none =
      .ok { status := "SUCESSO", anexo := some "anexo_iii",
            faixa := some ⟨180000, 6, 0⟩,
            receita_bruta_12m := some 0, receita_mensal := some 10000,
            aliquota_efetiva := 4, valor_das := 400,
            excede_sublimite_estadual := some false,
            fator_r := some none } := by
  obtain ⟨faixas, fx, ht, hfx, hcalc⟩ :=
    simples_nacional_receita_zero 10000 "anexo_iii" none rfl
  have hfaixas : faixas = faixas_anexo_iii := by
    have : some faixas = some faixas_anexo_iii := ht.symm.trans rfl
    exact Option.some_injective _ this
  subst hfaixas
  have hfx' : fx = ⟨180000, 6.0, 0⟩ := by
    have : some fx = some ⟨180000, 6.0, 0⟩ := by
      rw [← hfx]; norm_num [encontrarFaixa, faixas_anexo_iii]
    exact Option.some_injective _ this
  subst hfx'
  refine ⟨rfl, hcalc.trans ?_⟩
  norm_num [quantizeHalfUp, SimplesResult.mk.injEq, FaixaInfo.mk.injEq,
    anexoEfetivo]

/-- C10: within the revenue limit, an annex string that is not one of the
five table keys (after the Fator R override) makes
`calcular_simples_nacional` raise `ValueError("Anexo inválido: ...")`
instead of returning a result. -/
theorem anexo_invalido_raises (r m : ℚ) (a : String) (f : Option ℚ)
    (hle : r ≤ LIMITE_SIMPLES)
    (ht : TABELA_SIMPLES (anexoEfetivo a f) = none) :
    calcular_simples_nacional r m a f =
      .error ("Anexo inválido: " ++ anexoEfetivo a f) := by
  unfold calcular_simples_nacional
  rw [if_neg (not_lt.mpr hle)]
  show (match TABELA_SIMPLES (anexoEfetivo a f) with
        | none => _ | some _ => _) = _
  rw [ht]

/-- C10 witness: `anexo = "anexo_vi"` raises. -/
theorem anexo_invalido_raises_witness :
    (1000 : ℚ) ≤ LIMITE_SIMPLES ∧
    TABELA_SIMPLES (anexoEfetivo "anexo_vi" none) = none ∧
    calcular_simples_nacional 1000 100 "anexo_vi" none =
      .error "Anexo inválido: anexo_vi" :=
  ⟨by norm_num [LIMITE_SIMPLES], rfl,
   anexo_invalido_raises 1000 100 "anexo_vi" none
     (by norm_num [LIMITE_SIMPLES]) rfl⟩

/-! ## Theorems about the OCR engine -/

set_option maxRecDepth 100000

/-- Python's `max(..., key=...)` returns the first element attaining the
maximum: the result splits the list into a strictly-smaller prefix, the
result itself, and a tail of elements not exceeding it. -/
theorem pickMax_spec (xs : List (String × ℕ)) (x : String × ℕ) :
    ∃ l₁ l₂, x :: xs = l₁ ++ pickMax x xs :: l₂ ∧
      (∀ y ∈ l₁, y.2 < (pickMax x xs).2) ∧
      (∀ y ∈ x :: xs, y.2 ≤ (pickMax x xs).2) := by
  induction xs generalizing x with
  | nil => exact ⟨[], [], rfl, by simp, by simp [pickMax]⟩
  | cons a rest ih =>
      by_cases hxa : x.2 < a.2
      · have e : pickMax x (a :: rest) = pickMax a rest := by
          simp [pickMax, List.foldl_cons, hxa]
        obtain ⟨l₁, l₂, hdec, hlt, hle⟩ := ih a
        rw [e]
        refine ⟨x :: l₁, l₂, by rw [hdec]; rfl, ?_, ?_⟩
        · intro y hy
          rcases List.mem_cons.mp hy with rfl | hy'
          · exact lt_of_lt_of_le hxa (hle a (List.mem_cons_self a rest))
          · exact hlt y hy'
        · intro y hy
          rcases List.mem_cons.mp hy with rfl | hy'
          · exact le_of_lt (lt_of_lt_of_le hxa (hle a (List.mem_cons_self a rest)))
          · exact hle y hy'
      · have e : pickMax x (a :: rest) = pickMax x rest := by
          simp [pickMax, List.foldl_cons, hxa]
        obtain ⟨l₁, l₂, hdec, hlt, hle⟩ := ih x
        rw [e]
        have hax : a.2 ≤ x.2 := not_lt.mp hxa
        rcases l₁ with _ | ⟨z, l₁'⟩
        · rw [List.nil_append] at hdec
          obtain ⟨hx, hrest⟩ := List.cons_eq_cons.mp hdec
          refine ⟨[], a :: rest, ?_, by simp, ?_⟩
          · rw [List.nil_append, ← hx]
          · intro y hy
            rcases List.mem_cons.mp hy with rfl | hy'
            · exact hle y (List.mem_cons_self y rest)
            · rcases List.mem_cons.mp hy' with rfl | hy''
              · exact le_trans hax (hx ▸ le_refl x.2)
              · exact hle y (List.mem_cons_of_mem x hy'')
        · rw [List.cons_append] at hdec
          obtain ⟨hx, hrest⟩ := List.cons_eq_cons.mp hdec
          subst hx
          have hxm : x.2 < (pickMax x rest).2 :=
            hlt x (List.mem_cons_self x l₁')
          refine ⟨x :: a :: l₁', l₂, ?_, ?_, ?_⟩
          · exact congrArg (fun t => x :: a :: t) hrest
          · intro y hy
            rcases List.mem_cons.mp hy with rfl | hy'
            · exact hxm
            · rcases List.mem_cons.mp hy' with rfl | hy''
              · exact lt_of_le_of_lt hax hxm
              · exact hlt y (List.mem_cons_of_mem x hy'')
          · intro y hy
            rcases List.mem_cons.mp hy with rfl | hy'
            · exact hle y (List.mem_cons_self y rest)
            · rcases List.mem_cons.mp hy' with rfl | hy''
              · exact le_of_lt (lt_of_le_of_lt hax hxm)
              · exact hle y (List.mem_cons_of_mem x hy'')

/-- The per-pattern 25-point accumulation equals `25 ×` the number of
matching patterns. -/
theorem score_foldl (texto : String) (l : List Pat) (n : ℕ) :
    l.foldl
      (fun sc p => if research false p (lowerStr texto) then sc + 25 else sc) n =
      n + 25 * l.countP (fun p => research false p (lowerStr texto)) := by
  induction l generalizing n with
  | nil => simp
  | cons p rest ih =>
      simp only [List.foldl_cons, List.countP_cons]
      by_cases h : research false p (lowerStr texto) = true
      · rw [if_pos h, ih, h]
        simp
        omega
      · rw [if_neg h, ih]
        simp [h]

/-- C5 (amended): with a non-empty expected type, classification is skipped
and that type scores 100 (Python's `if tipo_esperado:` treats `""` like
`None`); otherwise each type scores 25 per matching pattern capped at 100,
the winner is the first type in table order attaining the maximal score
whenever some score is positive, and an all-zero score yields
`("desconhecido", 0)`. -/
theorem classification_algorithm (texto : String) :
    (∀ t : String, t ≠ "" → classificar_documento texto (some t) = (t, 100)) ∧
    (∀ tp : String, ∀ pats : List Pat, (tp, pats) ∈ PADROES_CLASSIFICACAO →
      (tp, min (25 * pats.countP fun p => research false p (lowerStr texto)) 100)
        ∈ scoresList texto) ∧
    (0 < (classificar_documento texto none).2 →
      ∃ l₁ l₂, scoresList texto = l₁ ++ classificar_documento texto none :: l₂ ∧
        (∀ y ∈ l₁, y.2 < (classificar_documento texto none).2) ∧
        (∀ y ∈ scoresList texto, y.2 ≤ (classificar_documento texto none).2)) ∧
    ((∀ y ∈ scoresList texto, y.2 = 0) →
      classificar_documento texto none = ("desconhecido", 0)) := by
  obtain ⟨x, xs, hxxs⟩ : ∃ x xs, scoresList texto = x :: xs := ⟨_, _, rfl⟩
  have hcls : classificar_documento texto none =
      (if 0 < (pickMax x xs).2 then pickMax x xs else ("desconhecido", 0)) := by
    unfold classificar_documento
    rw [hxxs]
    rfl
  refine ⟨?_, ?_, ?_, ?_⟩
  · intro t ht
    unfold classificar_documento
    simp [ht]
  · intro tp pats hmem
    have hm := List.mem_map_of_mem
      (fun tp : String × List Pat =>
        (tp.1,
         min (tp.2.foldl
           (fun sc p =>
             if research false p (lowerStr texto) then sc + 25 else sc) 0) 100))
      hmem
    simp only [score_foldl, Nat.zero_add] at hm
    have hsl : scoresList texto =
        List.map (fun tp : String × List Pat =>
          (tp.1,
           25 * List.countP (fun p => research false p (lowerStr texto)) tp.2 ⊓ 100))
          PADROES_CLASSIFICACAO := by
      unfold scoresList
      exact List.map_congr_left fun a _ => by rw [score_foldl, Nat.zero_add]
    rw [hsl]
    exact hm
  · intro hpos
    by_cases hp : 0 < (pickMax x xs).2
    · rw [hcls, if_pos hp, hxxs]
      obtain ⟨l₁, l₂, hdec, hlt, hle⟩ := pickMax_spec xs x
      exact ⟨l₁, l₂, hdec, hlt, fun y hy => hle y (hxxs ▸ hy)⟩
    · rw [hcls, if_neg hp] at hpos
      exact absurd hpos (by norm_num)
  · intro hzero
    have hmem : pickMax x xs ∈ x :: xs := by
      obtain ⟨l₁, l₂, hdec, -, -⟩ := pickMax_spec xs x
      rw [hdec]
      exact List.mem_append_right l₁ (List.mem_cons_self _ _)
    have hz : (pickMax x xs).2 = 0 := hzero _ (hxxs.symm ▸ hmem)
    rw [hcls, if_neg (by rw [hz]; exact lt_irrefl 0)]

/-- C5 witness: on the text `"danfe"` (which matches two NFE patterns), the
override and the first-maximum characterisation hold concretely. -/
theorem classification_algorithm_witness :
    ("nfe" : String) ≠ "" ∧
    classificar_documento "danfe" (some "nfe") = ("nfe", 100) ∧
    0 < (classificar_documento "danfe" none).2 ∧
    (∃ l₁ l₂, scoresList "danfe" = l₁ ++ classificar_documento "danfe" none :: l₂ ∧
      (∀ y ∈ l₁, y.2 < (classificar_documento "danfe" none).2) ∧
      (∀ y ∈ scoresList "danfe", y.2 ≤ (classificar_documento "danfe" none).2)) := by
  obtain ⟨h1, -, h3, -⟩ := classification_algorithm "danfe"
  have hpos : 0 < (classificar_documento "danfe" none).2 := by decide
  exact ⟨by decide, h1 "nfe" (by decide), hpos, h3 hpos⟩

/-- C5 counterexample: supplying the expected type `""` does not skip
classification — the result is `("desconhecido", 0)`, not `("", 100)`. -/
theorem classification_override_empty_cex :
    classificar_documento "" (some "") = ("desconhecido", 0) ∧
    classificar_documento "" (some "") ≠ (("" : String), (100 : ℕ)) := by
  constructor
  · decide
  · decide

/-- C6 counterexample: a text containing exactly the four quoted fragments
(and matching no other type's patterns) classifies as DAS with score 25,
not `≥ 75` — only the `\bdas\b` pattern matches. -/
theorem das_scenario_cex :
    (∀ frag ∈ fragmentos_das, strContains texto_das_fragmentos frag = true) ∧
    (∀ tp ∈ PADROES_CLASSIFICACAO, tp.1 ≠ "das" →
      ∀ p ∈ tp.2, research false p (lowerStr texto_das_fragmentos) = false) ∧
    classificar_documento texto_das_fragmentos none = ("das", 25) ∧
    ¬(75 ≤ (classificar_documento texto_das_fragmentos none).2) := by
  refine ⟨by decide, by decide, by decide, by decide⟩

/-- C6 (amended): on the repository's simulated DAS document (which
contains the four quoted fragments), classification yields DAS with score
75 (`≥ 75`), and extraction yields the digit-only CNPJ, `valor_float`
`850.0` and the accrual period `12/2025`. -/
theorem das_scenario_simulado :
    (∀ frag ∈ fragmentos_das, strContains texto_das_simulado frag = true) ∧
    classificar_documento texto_das_simulado none = ("das", 75) ∧
    75 ≤ (classificar_documento texto_das_simulado none).2 ∧
    (extrair_dados texto_das_simulado "das").cnpj = some "12345678000100" ∧
    (extrair_dados texto_das_simulado "das").cnpj_formatado =
      some "12.345.678/0001-00" ∧
    (extrair_dados texto_das_simulado "das").valor_float = some 850 ∧
    (extrair_dados texto_das_simulado "das").periodo_apuracao = some "12/2025" := by
  have hcl : classificar_documento texto_das_simulado none = ("das", 75) := by
    decide
  have hvf : (extrair_dados texto_das_simulado "das").valor_float = some 850 := by
    have h1 : (extrair_dados texto_das_simulado "das").valor_float =
        (searchCapture true valorCap texto_das_simulado).bind fun v =>
          pyFloatOfString (brToDecimal v) := rfl
    have h2 : searchCapture true valorCap texto_das_simulado = some "850,00" := by
      decide
    rw [h1, h2]
    show pyFloatOfString (brToDecimal "850,00") = some 850
    have h3 : brToDecimal "850,00" = "850.00" := by decide
    rw [h3]
    have h4 : pyFloatOfString "850.00" =
        some ((digitsVal ['8', '5', '0'] : ℚ) +
          (digitsVal ['0', '0'] : ℚ) / 10 ^ (['0', '0'] : List Char).length) := rfl
    rw [h4]
    have h5 : digitsVal ['8', '5', '0'] = 850 := by decide
    have h6 : digitsVal ['0', '0'] = 0 := by decide
    rw [h5, h6]
    norm_num
  exact ⟨by decide, hcl, by rw [hcl], by decide, by decide, hvf, by decide⟩

/-- The CNPJ validator on a 12-digit body plus two check digits: valid
exactly when the digits are not all identical and the two stored check
digits equal the computed mod-11 check digits. -/
theorem validar_digits_iff (body : List ℕ) (e1 e2 : ℕ) (hlen : body.length = 12) :
    validar_cnpj_digits (body ++ [e1, e2]) = true ↔
      (body ++ [e1, e2] ≠ List.replicate 14 ((body ++ [e1, e2]).headD 0) ∧
       e1 = calc_digito body peso1 ∧
       e2 = calc_digito (body ++ [calc_digito body peso1]) peso2) := by
  have hl : (body ++ [e1, e2]).length = 14 := by simp [hlen]
  have ht : (body ++ [e1, e2]).take 12 = body := by
    rw [List.take_append_of_le_length (by omega), List.take_of_length_le (by omega)]
  have hd : (body ++ [e1, e2]).drop 12 = [e1, e2] := by
    rw [List.drop_append_of_le_length (by omega), List.drop_of_length_le (by omega),
      List.nil_append]
  unfold validar_cnpj_digits
  rw [if_neg (by simp [hl]), ht, hd]
  by_cases hrep :
      body ++ [e1, e2] = List.replicate 14 ((body ++ [e1, e2]).headD 0)
  · rw [if_pos hrep]
    exact iff_of_false (by simp) fun h => h.1 hrep
  · rw [if_neg hrep]
    simp only [decide_eq_true_eq, List.cons.injEq, and_true]
    exact ⟨fun h => ⟨hrep, h⟩, fun h => h.2⟩

/-- C4 (amended): a 14-digit input validates exactly when its digits are
not all identical and both stored check digits equal the weighted
mod-11 check digits; consequently corrupting either check digit (or both)
of an accepted CNPJ always makes validation fail.  Corruption of a single
one of the twelve body digits is usually, but not always, detected
(see the collision counterexample). -/
theorem cnpj_checksum (ds body : List ℕ) (e1 e2 : ℕ)
    (hds : ds = body ++ [e1, e2]) (hlen : body.length = 12) :
    (validar_cnpj_digits ds = true ↔
      (ds ≠ List.replicate 14 (ds.headD 0) ∧
       e1 = calc_digito body peso1 ∧
       e2 = calc_digito (body ++ [calc_digito body peso1]) peso2)) ∧
    (∀ f1 f2 : ℕ, validar_cnpj_digits ds = true → (f1, f2) ≠ (e1, e2) →
      validar_cnpj_digits (body ++ [f1, f2]) = false) := by
  subst hds
  refine ⟨validar_digits_iff body e1 e2 hlen, ?_⟩
  intro f1 f2 hval hne
  rw [← Bool.not_eq_true, validar_digits_iff body f1 f2 hlen]
  rintro ⟨-, hf1, hf2⟩
  obtain ⟨-, he1, he2⟩ := (validar_digits_iff body e1 e2 hlen).mp hval
  exact hne (by rw [hf1, hf2, he1, he2])

/-- C4 witness: the CNPJ `11.222.333/0001-81` validates (check digits 8, 1),
and corrupting its first check digit to 9 fails. -/
theorem cnpj_checksum_witness :
    validar_cnpj "11.222.333/0001-81" = true ∧
    validar_cnpj_digits ([1, 1, 2, 2, 2, 3, 3, 3, 0, 0, 0, 1] ++ [8, 1]) = true ∧
    validar_cnpj_digits ([1, 1, 2, 2, 2, 3, 3, 3, 0, 0, 0, 1] ++ [9, 1]) = false := by
  have h := cnpj_checksum ([1, 1, 2, 2, 2, 3, 3, 3, 0, 0, 0, 1] ++ [8, 1])
    [1, 1, 2, 2, 2, 3, 3, 3, 0, 0, 0, 1] 8 1 rfl (by decide)
  have hv : validar_cnpj_digits ([1, 1, 2, 2, 2, 3, 3, 3, 0, 0, 0, 1] ++ [8, 1]) =
      true := h.1.mpr (by decide)
  exact ⟨by decide, hv, h.2 9 1 hv (by decide)⟩

/-- C4 counterexample: two valid CNPJs differing in a single (body) digit —
`30582357039300` and `50582357039300` both validate, so single-digit
corruption is not always detected. -/
theorem cnpj_single_digit_cex :
    validar_cnpj "30582357039300" = true ∧
    validar_cnpj "50582357039300" = true ∧
    "30582357039300".toList.length = 14 ∧
    (("30582357039300".toList.zip "50582357039300".toList).countP
      fun p => p.1 != p.2) = 1 := by
  refine ⟨by decide, by decide, by decide, by decide⟩

/-! ## Theorems about the SPED audit engine -/

/-- Every finding has exactly one of the three severities, so the three
severity counts partition the findings list. -/
theorem sev_partition (ncs : List NaoConformidade) :
    (ncs.countP fun nc => decide (nc.severidade = Severidade.critico)) +
    (ncs.countP fun nc => decide (nc.severidade = Severidade.aviso)) +
    (ncs.countP fun nc => decide (nc.severidade = Severidade.informativo)) =
      ncs.length := by
  induction ncs with
  | nil => rfl
  | cons nc rest ih =>
      simp only [List.countP_cons, List.length_cons]
      cases h : nc.severidade <;> simp [h] <;> omega

/-- C7: the conformity score is `max(0, 100 − (10×criticos + 5×avisos +
1×informativos))` over the findings list, it equals 100 exactly when the
list is empty, recommendation tiers are inclusive at their lower bound, and
a single CRITICO finding scores exactly 90 with the "excellent"
recommendation. -/
theorem conformity_score (ncs : List NaoConformidade) (dados : DadosSped) :
    ((gerar_relatorio_auditoria ncs dados).score_conformidade =
      max 0 (100 -
        (10 * ((ncs.countP fun nc => decide (nc.severidade = .critico)) : ℚ) +
         5 * ((ncs.countP fun nc => decide (nc.severidade = .aviso)) : ℚ) +
         1 * ((ncs.countP fun nc => decide (nc.severidade = .informativo)) : ℚ)))) ∧
    ((gerar_relatorio_auditoria ncs dados).score_conformidade = 100 ↔ ncs = []) ∧
    (∀ (s : ℚ) (c : ℕ), 90 ≤ s → gerar_recomendacao s c =
      "Excelente conformidade. Manter monitoramento regular.") ∧
    (gerar_relatorio_auditoria [pendenciaEcac] dados).score_conformidade = 90 ∧
    (gerar_relatorio_auditoria [pendenciaEcac] dados).recomendacao_geral =
      "Excelente conformidade. Manter monitoramento regular." := by
  have hscore : ∀ ncs' : List NaoConformidade,
      (gerar_relatorio_auditoria ncs' dados).score_conformidade =
        (if ncs'.length = 0 then (100 : ℚ)
         else max 0 (100 -
          (((ncs'.countP fun nc => decide (nc.severidade = .critico)) : ℚ) * 10 +
           ((ncs'.countP fun nc => decide (nc.severidade = .aviso)) : ℚ) * 5 +
           ((ncs'.countP fun nc => decide (nc.severidade = .informativo)) : ℚ) * 1))) :=
    fun ncs' => rfl
  refine ⟨?_, ?_, ?_, ?_, ?_⟩
  · rw [hscore]
    rcases eq_or_ne ncs [] with rfl | hne
    · norm_num
    · rw [if_neg (by simpa using hne)]
      ring_nf
  · rw [hscore]
    constructor
    · intro hsc
      by_contra hne
      rw [if_neg (by simpa using hne)] at hsc
      have hlen : 0 < ncs.length := List.length_pos.mpr hne
      have hpart := sev_partition ncs
      have hc0 : (0 : ℚ) ≤ (ncs.countP fun nc => decide (nc.severidade = .critico)) :=
        Nat.cast_nonneg _
      have ha0 : (0 : ℚ) ≤ (ncs.countP fun nc => decide (nc.severidade = .aviso)) :=
        Nat.cast_nonneg _
      have hi0 : (0 : ℚ) ≤
          (ncs.countP fun nc => decide (nc.severidade = .informativo)) :=
        Nat.cast_nonneg _
      have hsum : (1 : ℚ) ≤
          ((ncs.countP fun nc => decide (nc.severidade = .critico)) : ℚ) +
          ((ncs.countP fun nc => decide (nc.severidade = .aviso)) : ℚ) +
          ((ncs.countP fun nc => decide (nc.severidade = .informativo)) : ℚ) := by
        have : (1 : ℚ) ≤ (ncs.length : ℚ) := by exact_mod_cast hlen
        rw [← hpart] at this
        push_cast at this
        linarith
      have hle : max (0 : ℚ) (100 -
          (((ncs.countP fun nc => decide (nc.severidade = .critico)) : ℚ) * 10 +
           ((ncs.countP fun nc => decide (nc.severidade = .aviso)) : ℚ) * 5 +
           ((ncs.countP fun nc => decide (nc.severidade = .informativo)) : ℚ) * 1))
            ≤ 99 := by
        apply max_le (by norm_num)
        linarith
      rw [hsc] at hle
      linarith
    · rintro rfl
      norm_num
  · intro s c h
    unfold gerar_recomendacao
    rw [if_pos h]
  · rw [hscore]
    norm_num [pendenciaEcac, List.countP_cons, List.countP_nil]
    rw [if_neg (by decide : ¬(Severidade.critico = Severidade.aviso)),
      if_neg (by decide : ¬(Severidade.critico = Severidade.informativo))]
    norm_num
  · have h90 : (gerar_relatorio_auditoria [pendenciaEcac] dados).score_conformidade
        = 90 := by
      rw [hscore]
      norm_num [pendenciaEcac, List.countP_cons, List.countP_nil]
      rw [if_neg (by decide : ¬(Severidade.critico = Severidade.aviso)),
        if_neg (by decide : ¬(Severidade.critico = Severidade.informativo))]
      norm_num
    show gerar_recomendacao
      (gerar_relatorio_auditoria [pendenciaEcac] dados).score_conformidade
      ((gerar_relatorio_auditoria [pendenciaEcac] dados).criticos) = _
    rw [h90]
    unfold gerar_recomendacao
    rw [if_pos (by norm_num)]

/-- C7 witness: concrete instantiation — the empty ledger scores 100, and
the inclusive lower boundary of the "excellent" tier holds at score 90. -/
theorem conformity_score_witness :
    ((gerar_relatorio_auditoria [] ⟨none, none⟩).score_conformidade = 100 ↔
      ([] : List NaoConformidade) = []) ∧
    (90 : ℚ) ≤ 90 ∧
    gerar_recomendacao 90 1 =
      "Excelente conformidade. Manter monitoramento regular." := by
  obtain ⟨-, h2, h3, -, -⟩ := conformity_score [] ⟨none, none⟩
  exact ⟨h2, le_refl 90, h3 90 1 (le_refl 90)⟩

end ConsultSLT
